import Mathlib

/-!
Shallow embedding of `src/Attrezo-py.py`, an asynchronous scraper for the
Atrezzo Vázquez product catalog.  HTML documents are modelled as trees of
nodes; BeautifulSoup queries (`findAll` by tag/class, `getText`, attribute
lookup) are modelled as recursive functions over the tree; pandas
`DataFrame`/`concat` are modelled as `Except`-valued constructors that fail
exactly where pandas raises (unequal column lengths, empty concat list).
The aiohttp network is an oracle `server : Nat → HttpResponse` and the
HTML parser an oracle `parse : String → Node`; `asyncio.gather` is modelled
with an explicit completion schedule writing results into submission-order
slots.
-/

/-- An HTTP response: status code and body text. -/
structure HttpResponse where
  status : Nat
  text : String
deriving Repr, DecidableEq

/-- An HTML node: either a text node or an element with a tag name, its
`class` attribute (stored, as in BeautifulSoup's html.parser, as the list
of whitespace-separated tokens), an attribute list and children. -/
inductive Node where
  | text (s : String) : Node
  | element (tag : String) (classes : List String)
      (attrs : List (String × String)) (children : List Node) : Node

/-- BeautifulSoup class matching: a query matches when it equals one of the
class tokens or the whole space-joined `class` attribute value. -/
def matchesClass (classes : List String) (query : String) : Bool :=
  classes.contains query || String.intercalate " " classes == query

mutual

/-- All descendants of a node, in document (pre-)order; the node itself is
not included, mirroring BeautifulSoup `findAll` which searches descendants. -/
def Node.descendants : Node → List Node
  | .text _ => []
  | .element _ _ _ children => descendantsList children

/-- Descendants of a list of sibling nodes, each preceding its own subtree. -/
def descendantsList : List Node → List Node
  | [] => []
  | c :: cs => c :: (Node.descendants c ++ descendantsList cs)

end

mutual

/-- BeautifulSoup `getText`: concatenation of all text in the subtree. -/
def Node.getText : Node → String
  | .text s => s
  | .element _ _ _ children => getTextList children

/-- Concatenated text of a list of sibling nodes. -/
def getTextList : List Node → String
  | [] => ""
  | c :: cs => Node.getText c ++ getTextList cs

end

/-- Model of `findAll(tag, {"class": query})`: descendant elements with the given tag
whose class matches the query. -/
def Node.findAllClass (n : Node) (tag query : String) : List Node :=
  n.descendants.filter fun c =>
    match c with
    | .element t cls _ _ => t == tag && matchesClass cls query
    | .text _ => false

/-- Model of `findAll(tag)`: descendant elements with the given tag. -/
def Node.findAllTag (n : Node) (tag : String) : List Node :=
  n.descendants.filter fun c =>
    match c with
    | .element t _ _ _ => t == tag
    | .text _ => false

/-- Model of `node.get(key)`: attribute lookup, `none` when absent. -/
def Node.getAttr (n : Node) (key : String) : Option String :=
  match n with
  | .element _ _ attrs _ => List.lookup key attrs
  | .text _ => none

/-- One product row of the extracted DataFrame; optional fields are null
(`none`) when the corresponding markup is absent. Column names follow the
source: nombre, categoría, descripción, sección, url. -/
structure ProductRecord where
  nombre : Option String
  categoria : Option String
  descripcion : String
  seccion : Option String
  url : Option String
deriving Repr, DecidableEq

/-- Model of `producto.findAll("a", {"class": "title"})[0].getText()` wrapped in
`try/except`: `none` on `IndexError` (no matching element). -/
def extractNombre (producto : Node) : Option String :=
  match producto.findAllClass "a" "title" with
  | [] => none
  | a :: _ => some a.getText

/-- Model of `producto.findAll("a", {"class": "tag"})[0].getText()` wrapped in
`try/except`: `none` on `IndexError`. -/
def extractCategoria (producto : Node) : Option String :=
  match producto.findAllClass "a" "tag" with
  | [] => none
  | a :: _ => some a.getText

/-- Section pass body: keep the text when its length exceeds 1, else null. -/
def extractSeccion (seccion : Node) : Option String :=
  if (Node.getText seccion).length > 1 then some (Node.getText seccion) else none

/-- Model of `imagen.findAll("img")[0].get("src")` wrapped in `try/except`: `none`
on `IndexError` (no `img`); `.get` itself yields `none` on a missing
`src` attribute. -/
def extractImage (imagen : Node) : Option String :=
  match imagen.findAllTag "img" with
  | [] => none
  | im :: _ => im.getAttr "src"

/-- Model of `sopa.findAll("div", {"class": "product-slide-entry shift-image"})`. -/
def lista_prod_cat (sopa : Node) : List Node :=
  sopa.findAllClass "div" "product-slide-entry shift-image"

/-- The `nombres_productos` list: one entry per product block. -/
def nombres_productos (sopa : Node) : List (Option String) :=
  (lista_prod_cat sopa).map extractNombre

/-- The `categorias_productos` list: one entry per product block. -/
def categorias_productos (sopa : Node) : List (Option String) :=
  (lista_prod_cat sopa).map extractCategoria

/-- Model of `sopa.findAll("div", {"class": "cat-sec-box"})`. -/
def lista_secciones (sopa : Node) : List Node :=
  sopa.findAllClass "div" "cat-sec-box"

/-- The `secciones_productos` list: one entry per section block. -/
def secciones_productos (sopa : Node) : List (Option String) :=
  (lista_secciones sopa).map extractSeccion

/-- Model of `sopa.findAll("p")`. -/
def lista_descripciones (sopa : Node) : List Node :=
  sopa.findAllTag "p"

/-- The `descripciones_productos` list: all paragraph texts in document
order, then `[:48]`. -/
def descripciones_productos (sopa : Node) : List String :=
  (((lista_descripciones sopa).map Node.getText).take 48)

/-- Model of `sopa.findAll("div", {"class": "product-image"})`. -/
def lista_imagenes (sopa : Node) : List Node :=
  sopa.findAllClass "div" "product-image"

/-- The `imagenes_productos` list: one entry per image-container block. -/
def imagenes_productos (sopa : Node) : List (Option String) :=
  (lista_imagenes sopa).map extractImage

/-- Positional zip of the five column lists into rows; stops at the
shortest list (only invoked when all lengths are equal). -/
def zip5 : List (Option String) → List (Option String) → List String →
    List (Option String) → List (Option String) → List ProductRecord
  | n :: ns, c :: cs, d :: ds, s :: ss, u :: us =>
      ⟨n, c, d, s, u⟩ :: zip5 ns cs ds ss us
  | _, _, _, _, _ => []

/-- Model of `pd.DataFrame({...})` over five column lists: raises `ValueError` when
the lists do not all have the same length, else builds the aligned rows. -/
def mkDataFrame (ns cs : List (Option String)) (ds : List String)
    (ss us : List (Option String)) : Except String (List ProductRecord) :=
  if ns.length = cs.length ∧ cs.length = ds.length ∧ ds.length = ss.length ∧
      ss.length = us.length then
    .ok (zip5 ns cs ds ss us)
  else
    .error "All arrays must be of the same length"

/-- Model of `llenar_diccionario(sopa)`: the five extraction passes followed by the
DataFrame constructor.  Called on `None` (an absent document) it raises
`AttributeError`; any raise is modelled as `.error`. -/
def llenar_diccionario : Option Node → Except String (List ProductRecord)
  | none => .error "AttributeError: NoneType has no attribute findAll"
  | some sopa =>
      mkDataFrame (nombres_productos sopa) (categorias_productos sopa)
        (descripciones_productos sopa) (secciones_productos sopa)
        (imagenes_productos sopa)

/-- Model of `pd.concat(df_list, ignore_index=True)`: raises `ValueError` on an
empty list, else concatenates the tables in input order. -/
def concat_df (df_list : List (List ProductRecord)) :
    Except String (List ProductRecord) :=
  if df_list.isEmpty then .error "ValueError: No objects to concatenate"
  else .ok df_list.flatten

/-- Model of `fetch_async_url(url, session)`: prints a diagnostic when the status is
not 200, prints the status line, and (unconditionally) returns the response
body.  The first component is the printed log, the second the returned
value. -/
def fetch_async_url (response : HttpResponse) : List String × Option String :=
  ((if response.status ≠ 200 then ["Se ha producido un error"] else []) ++
      ["Status code: " ++ toString response.status],
    some response.text)

/-- The URL template used by `sopa_atrezzo` for a page number. -/
def url_atrezzo (page : Nat) : String :=
  "https://atrezzovazquez.es/shop.php?search_type=-1&search_terms=&limit=48&page="
    ++ toString page

/-- Model of `sopa_atrezzo(session, page)`: fetches the page body for the templated
URL and, when the body is truthy (not `None`, not empty), parses it with
BeautifulSoup (the oracle `parse`); otherwise returns `None`. -/
def sopa_atrezzo (parse : String → Node) (response : HttpResponse) :
    List String × Option Node :=
  let fetched := fetch_async_url response
  match fetched.2 with
  | some html_content =>
      if html_content = "" then (fetched.1, none)
      else (fetched.1, some (parse html_content))
  | none => (fetched.1, none)

/-- One step per completed task: a completing task writes its result into
the slot of its submission index (out-of-range indices write nothing). -/
def runSchedule (tasks : List α) : List Nat → List (Option α) → List (Option α)
  | [], slots => slots
  | i :: rest, slots => runSchedule tasks rest (slots.set i tasks[i]?)

/-- Model of `asyncio.gather(*tasks)` under an explicit completion order `schedule`:
slots are allocated in submission order, filled as tasks complete, and read
out in submission order at the end. -/
def asyncio_gather (tasks : List α) (schedule : List Nat) : List α :=
  (runSchedule tasks schedule (List.replicate tasks.length none)).filterMap id

/-- Model of `main(paginas)` generalized by the network oracle `server`, the parser
oracle `parse` and the completion order `schedule`: builds one
`sopa_atrezzo` task per page in `range(1, paginas)`, gathers them, runs
`llenar_diccionario` on each document keeping only the pages whose
extraction does not raise, and concatenates.  Returns the list of requested
page indices together with the run's result. -/
def mainSched (parse : String → Node) (server : Nat → HttpResponse)
    (paginas : Nat) (schedule : List Nat) :
    List Nat × Except String (List ProductRecord) :=
  (List.range' 1 (paginas - 1),
    concat_df
      ((asyncio_gather
          ((List.range' 1 (paginas - 1)).map fun p =>
            (sopa_atrezzo parse (server p)).2)
          schedule).filterMap
        fun sopa => (llenar_diccionario sopa).toOption))

/-- Model of `main(paginas)`: tasks complete in submission order (the default
schedule); the observable result is schedule-independent (see the
concurrency theorem below).  Named `mainRun` because `main` is reserved. -/
def mainRun (parse : String → Node) (server : Nat → HttpResponse)
    (paginas : Nat) : List Nat × Except String (List ProductRecord) :=
  mainSched parse server paginas (List.range (paginas - 1))

/-- The rows a single page contributes to the Combined Table: the page's
extracted table when extraction succeeds, nothing when it raises. -/
def pageRows (parse : String → Node) (server : Nat → HttpResponse)
    (p : Nat) : List ProductRecord :=
  ((llenar_diccionario (sopa_atrezzo parse (server p)).2).toOption).getD []

/-! ### Concrete sample documents, parser and server oracles -/

/-- A well-formed product block: name link, category link. -/
def prodB : Node :=
  Node.element "div" ["product-slide-entry", "shift-image"] []
    [Node.element "a" ["title"] [] [Node.text "Lamp"],
     Node.element "a" ["tag"] [] [Node.text "Cat"]]

/-- A product block with neither a name link nor a category link. -/
def prodBempty : Node :=
  Node.element "div" ["product-slide-entry", "shift-image"] [] []

/-- A section block with visible text. -/
def secB : Node := Node.element "div" ["cat-sec-box"] [] [Node.text "Sec"]

/-- An image container with an `img` carrying a `src`. -/
def imgB : Node :=
  Node.element "div" ["product-image"] []
    [Node.element "img" [] [("src", "u.jpg")] []]

/-- An image container with no `img` inside. -/
def imgBempty : Node := Node.element "div" ["product-image"] [] []

/-- A paragraph element. -/
def pB : Node := Node.element "p" [] [] [Node.text "Desc"]

/-- A page with one product block, one section, one image and one
paragraph: all five column lists have length 1. -/
def docE : Node := Node.element "html" [] [] [prodB, secB, imgB, pB]

/-- A full page: 48 product blocks, 48 sections, 48 images, 48 paragraphs. -/
def doc48 : Node :=
  Node.element "html" [] []
    (List.replicate 48 prodB ++ List.replicate 48 secB ++
      List.replicate 48 imgB ++ List.replicate 48 pB)

/-- A page with a single product block but 48 paragraphs: the name list has
length 1 while the description list has length 48. -/
def docC4 : Node :=
  Node.element "html" [] [] ([prodB, secB, imgB] ++ List.replicate 48 pB)

/-- A page with one product block and nothing else: column lengths
1, 1, 0, 0, 0. -/
def docMM : Node := Node.element "html" [] [] [prodBempty]

/-- A parser oracle that recognizes the body `"bodyE"` as `docE`. -/
def parseE : String → Node :=
  fun s => if s = "bodyE" then docE else Node.text ""

/-- A server for which page 1 answers status 500 with a parsable body. -/
def serverE : Nat → HttpResponse :=
  fun p => if p = 1 then ⟨500, "bodyE"⟩ else ⟨200, ""⟩

/-- A server answering every page with status 200 and the `docE` body. -/
def serverOk : Nat → HttpResponse := fun _ => ⟨200, "bodyE"⟩

/-- A trivial parser oracle. -/
def parse0 : String → Node := fun _ => Node.text ""

/-- A server answering every page with status 200 and an empty body. -/
def server0 : Nat → HttpResponse := fun _ => ⟨200, ""⟩

/-! ### Helper lemmas about the gather model -/

theorem runSchedule_length (tasks : List α) (schedule : List Nat) :
    ∀ slots : List (Option α),
      (runSchedule tasks schedule slots).length = slots.length := by
  induction schedule with
  | nil => intro slots; rfl
  | cons i rest ih =>
      intro slots
      rw [runSchedule, ih, List.length_set]

theorem runSchedule_getElem? (tasks : List α) (schedule : List Nat) :
    ∀ (slots : List (Option α)) (j : Nat),
      (runSchedule tasks schedule slots)[j]? =
        if j ∈ schedule ∧ j < slots.length then some tasks[j]? else slots[j]? := by
  induction schedule with
  | nil => intro slots j; simp [runSchedule]
  | cons i rest ih =>
      intro slots j
      rw [runSchedule, ih, List.length_set, List.getElem?_set]
      by_cases h1 : i = j
      · subst h1
        by_cases h2 : i < slots.length
        · by_cases h3 : i ∈ rest <;> simp [h2, h3, List.mem_cons]
        · by_cases h3 : i ∈ rest <;>
            simp [h2, h3, List.mem_cons, List.getElem?_eq_none (Nat.le_of_not_lt h2)]
      · have h1' : j ≠ i := fun hc => h1 hc.symm
        by_cases h3 : j ∈ rest
        · by_cases h2 : j < slots.length <;> simp [h1, h1', h2, h3, List.mem_cons]
        · by_cases h2 : j < slots.length <;> simp [h1, h1', h2, h3, List.mem_cons]

theorem runSchedule_complete (tasks : List α) (schedule : List Nat)
    (h : ∀ j, j < tasks.length → j ∈ schedule) :
    runSchedule tasks schedule (List.replicate tasks.length none) =
      tasks.map some := by
  apply List.ext_getElem?
  intro j
  rw [runSchedule_getElem?, List.length_replicate, List.getElem?_map]
  by_cases hj : j < tasks.length
  · rw [if_pos ⟨h j hj, hj⟩, List.getElem?_eq_getElem hj]
    rfl
  · rw [if_neg (fun hc => hj hc.2), List.getElem?_replicate, if_neg hj,
      List.getElem?_eq_none (Nat.le_of_not_lt hj)]
    rfl

theorem asyncio_gather_of_perm (tasks : List α) (schedule : List Nat)
    (h : schedule.Perm (List.range tasks.length)) :
    asyncio_gather tasks schedule = tasks := by
  rw [asyncio_gather, runSchedule_complete, List.filterMap_map,
    Function.id_comp, List.filterMap_some]
  intro j hj
  rw [h.mem_iff]
  exact List.mem_range.mpr hj

/-- Gathering in submission order is schedule-invariant: under any
completion-order permutation the run's result is the concatenation of the
per-page tables taken in ascending page order. -/
theorem mainSched_snd_of_perm (parse : String → Node)
    (server : Nat → HttpResponse) (paginas : Nat) (schedule : List Nat)
    (h : schedule.Perm (List.range (paginas - 1))) :
    (mainSched parse server paginas schedule).2 =
      concat_df ((List.range' 1 (paginas - 1)).filterMap
        fun p => (llenar_diccionario (sopa_atrezzo parse (server p)).2).toOption) := by
  have hlen : ((List.range' 1 (paginas - 1)).map
      fun p => (sopa_atrezzo parse (server p)).2).length = paginas - 1 := by
    rw [List.length_map, List.length_range']
  show concat_df _ = _
  rw [asyncio_gather_of_perm _ _ (by rw [hlen]; exact h), List.filterMap_map]
  rfl

/-- Projection lemmas for the positional zip: under equal column lengths
each column of the assembled table is the original list. -/
theorem zip5_spec (ns : List (Option String)) :
    ∀ (cs : List (Option String)) (ds : List String)
      (ss us : List (Option String)),
      ns.length = cs.length → cs.length = ds.length → ds.length = ss.length →
      ss.length = us.length →
      (zip5 ns cs ds ss us).length = ns.length ∧
      (zip5 ns cs ds ss us).map ProductRecord.nombre = ns ∧
      (zip5 ns cs ds ss us).map ProductRecord.categoria = cs ∧
      (zip5 ns cs ds ss us).map ProductRecord.descripcion = ds ∧
      (zip5 ns cs ds ss us).map ProductRecord.seccion = ss ∧
      (zip5 ns cs ds ss us).map ProductRecord.url = us := by
  induction ns with
  | nil =>
      intro cs ds ss us h1 h2 h3 h4
      have hcs : cs = [] := List.length_eq_zero.mp (by simpa using h1.symm)
      subst hcs
      have hds : ds = [] := List.length_eq_zero.mp (by simpa using h2.symm)
      subst hds
      have hss : ss = [] := List.length_eq_zero.mp (by simpa using h3.symm)
      subst hss
      have hus : us = [] := List.length_eq_zero.mp (by simpa using h4.symm)
      subst hus
      exact ⟨rfl, rfl, rfl, rfl, rfl, rfl⟩
  | cons n ns ih =>
      intro cs ds ss us h1 h2 h3 h4
      cases cs with
      | nil => simp at h1
      | cons c cs =>
        cases ds with
        | nil => simp at h2
        | cons d ds =>
          cases ss with
          | nil => simp at h3
          | cons s ss =>
            cases us with
            | nil => simp at h4
            | cons u us =>
              obtain ⟨l1, m1, m2, m3, m4, m5⟩ :=
                ih cs ds ss us (by simpa using h1) (by simpa using h2)
                  (by simpa using h3) (by simpa using h4)
              simp [zip5, l1, m1, m2, m3, m4, m5]

/-- Flattening per-page contributions (empty for dropped pages) is the same
as concatenating the successful tables only. -/
theorem flatten_map_getD (l : List Nat) (g : Nat → Option (List ProductRecord)) :
    (l.map fun p => (g p).getD []).flatten = (l.filterMap g).flatten := by
  induction l with
  | nil => rfl
  | cons p l ih => cases hg : g p <;> simp [hg, ih, List.filterMap_cons]

/-- Facts: `isOk` and `toOption` agree on which side of `Except` holds. -/
theorem except_isOk_iff (e : Except String (List ProductRecord)) :
    e.isOk = true ↔ (e.toOption).isSome = true := by
  cases e <;> simp [Except.isOk, Except.toBool, Except.toOption]

/-- Lemma: `concat_df` over the kept pages succeeds exactly when some page kept a
table. -/
theorem concat_df_filterMap_isOk (l : List Nat)
    (g : Nat → Option (List ProductRecord)) :
    (concat_df (l.filterMap g)).isOk = true ↔ ∃ p ∈ l, (g p).isSome = true := by
  constructor
  · intro h
    by_contra hno
    push_neg at hno
    have hnil : l.filterMap g = [] := by
      rw [List.filterMap_eq_nil_iff]
      intro p hp
      have hb := hno p hp
      cases hgp : g p with
      | none => rfl
      | some v => rw [hgp] at hb; simp at hb
    rw [concat_df, hnil] at h
    simp [Except.isOk, Except.toBool] at h
  · intro h
    obtain ⟨p, hp, hs⟩ := h
    have hne : ¬(l.filterMap g).isEmpty = true := by
      rw [List.isEmpty_iff, List.filterMap_eq_nil_iff]
      intro hnil
      rw [hnil p hp] at hs
      simp at hs
    rw [concat_df, if_neg hne]
    rfl

/-! ### Claim theorems -/

/-- C1: the claim says that on a non-200 status `fetch_async_url` emits a
diagnostic and returns absent instead of the response text.  The code emits
the diagnostic but the `return await response.text()` runs unconditionally:
at status 404 the function still returns the body, contradicting the claim
and the function's own docstring. -/
theorem C1_non200_still_returns_body :
    fetch_async_url ⟨404, "errbody"⟩ =
      (["Se ha producido un error", "Status code: 404"], some "errbody") := rfl

/-- C2: the claim says a page fetched with non-200 status contributes zero
rows to the Combined Table.  In the code the non-200 body is still returned,
parsed and extracted: a two-page run whose page 1 answers status 500 with a
parsable body yields a Combined Table with one row from that page. -/
theorem C2_non200_page_contributes_rows :
    (serverE 1).status = 500 ∧
    (mainRun parseE serverE 2).2 =
      .ok [⟨some "Lamp", some "Cat", "Desc", some "Sec", some "u.jpg"⟩] :=
  ⟨rfl, rfl⟩

/-- C3 counterexample: with `paginas = 1` the Orchestrator requests zero
pages, the list fed to `pd.concat` is empty and `pd.concat` raises
`ValueError`, so the run does surface an error to the caller. -/
theorem C3_cex_zero_pages_raises :
    (mainRun parse0 server0 1).2 =
      .error "ValueError: No objects to concatenate" := rfl

/-- C3 (amended): per-page errors are swallowed, but the run returns a
Combined Table exactly when at least one requested page's extraction
succeeds; with zero pages requested or every page failing, the final
concatenation raises `ValueError`. -/
theorem C3_amended_run_returns_iff_some_page_succeeds
    (parse : String → Node) (server : Nat → HttpResponse) (paginas : Nat) :
    ((mainRun parse server paginas).2.isOk = true) ↔
      ∃ p ∈ List.range' 1 (paginas - 1),
        (llenar_diccionario (sopa_atrezzo parse (server p)).2).isOk = true := by
  rw [mainRun, mainSched_snd_of_perm parse server paginas _ (List.Perm.refl _),
    concat_df_filterMap_isOk]
  constructor
  · intro h
    obtain ⟨p, hp, hs⟩ := h
    exact ⟨p, hp, (except_isOk_iff _).mpr hs⟩
  · intro h
    obtain ⟨p, hp, hs⟩ := h
    exact ⟨p, hp, (except_isOk_iff _).mp hs⟩

/-- Lemma: a successful `pd.concat` returns exactly the flattened input
tables. -/
theorem concat_df_ok (l : List (List ProductRecord)) (t : List ProductRecord)
    (h : concat_df l = .ok t) : t = l.flatten := by
  rw [concat_df] at h
  by_cases hE : l.isEmpty
  · rw [if_pos hE] at h
    exact (Except.noConfusion h)
  · rw [if_neg hE] at h
    cases h
    rfl

/-- C4 counterexample: a parsed document with exactly 1 product block and
48 paragraph elements (at least 48, as the claim assumes) makes
`llenar_diccionario` raise `ValueError` in the DataFrame constructor
(name column length 1 vs description column length 48); no 1-row Page
Table is returned. -/
theorem C4_cex_one_block_raises :
    (lista_prod_cat docC4).length = 1 ∧
    48 ≤ (lista_descripciones docC4).length ∧
    llenar_diccionario (some docC4) =
      .error "All arrays must be of the same length" :=
  ⟨rfl, by decide, rfl⟩

/-- C4 (amended): for a parsed document whose product-block, section-block
and image-block counts are all 48 (so `k = 48`, forced by the description
truncation to 48) and with at least 48 paragraph elements, the extractor
returns a Page Table with exactly `k` rows whose name, category and
image-url columns are, positionally, the extraction of the k-th matching
block in document order. -/
theorem C4_amended_full_page_aligned (doc : Node)
    (h1 : (lista_prod_cat doc).length = 48)
    (h2 : (lista_secciones doc).length = 48)
    (h3 : (lista_imagenes doc).length = 48)
    (h4 : 48 ≤ (lista_descripciones doc).length) :
    ∃ t : List ProductRecord,
      llenar_diccionario (some doc) = .ok t ∧
      t.length = (lista_prod_cat doc).length ∧
      t.map ProductRecord.nombre = (lista_prod_cat doc).map extractNombre ∧
      t.map ProductRecord.categoria =
        (lista_prod_cat doc).map extractCategoria ∧
      t.map ProductRecord.url = (lista_imagenes doc).map extractImage := by
  have l1 : (nombres_productos doc).length = 48 := by
    rw [nombres_productos, List.length_map, h1]
  have l2 : (categorias_productos doc).length = 48 := by
    rw [categorias_productos, List.length_map, h1]
  have l3 : (descripciones_productos doc).length = 48 := by
    rw [descripciones_productos, List.length_take, List.length_map]
    omega
  have l4 : (secciones_productos doc).length = 48 := by
    rw [secciones_productos, List.length_map, h2]
  have l5 : (imagenes_productos doc).length = 48 := by
    rw [imagenes_productos, List.length_map, h3]
  obtain ⟨zl, zn, zc, zd, zs, zu⟩ :=
    zip5_spec (nombres_productos doc) (categorias_productos doc)
      (descripciones_productos doc) (secciones_productos doc)
      (imagenes_productos doc) (by omega) (by omega) (by omega) (by omega)
  refine ⟨zip5 (nombres_productos doc) (categorias_productos doc)
      (descripciones_productos doc) (secciones_productos doc)
      (imagenes_productos doc), ?_, ?_, ?_, ?_, ?_⟩
  · simp only [llenar_diccionario, mkDataFrame]
    rw [if_pos ⟨by omega, by omega, by omega, by omega⟩]
  · rw [zl, nombres_productos, List.length_map]
  · exact zn
  · exact zc
  · exact zu

/-- C4 witness: a concrete full page with 48 of each block kind. -/
theorem C4_amended_full_page_aligned_witness :
    ∃ t : List ProductRecord,
      llenar_diccionario (some doc48) = .ok t ∧
      t.length = (lista_prod_cat doc48).length ∧
      t.map ProductRecord.nombre = (lista_prod_cat doc48).map extractNombre ∧
      t.map ProductRecord.categoria =
        (lista_prod_cat doc48).map extractCategoria ∧
      t.map ProductRecord.url = (lista_imagenes doc48).map extractImage :=
  C4_amended_full_page_aligned doc48 (by decide) (by decide) (by decide)
    (by decide)

/-- C5: whenever the five independently-collected column lists have unequal
lengths the DataFrame constructor inside `llenar_diccionario` raises, and
the Orchestrator drops such a page entirely: if the run returns a Combined
Table it is the flat concatenation of per-page contributions where a page
whose extraction raised contributes the empty list of rows — never a
padded or partial table. -/
theorem C5_mismatched_page_drops_rows :
    (∀ doc : Node,
      ¬((nombres_productos doc).length = (categorias_productos doc).length ∧
        (categorias_productos doc).length =
          (descripciones_productos doc).length ∧
        (descripciones_productos doc).length =
          (secciones_productos doc).length ∧
        (secciones_productos doc).length = (imagenes_productos doc).length) →
      llenar_diccionario (some doc) =
        .error "All arrays must be of the same length") ∧
    (∀ (parse : String → Node) (server : Nat → HttpResponse)
        (paginas : Nat) (t : List ProductRecord),
      (mainRun parse server paginas).2 = .ok t →
      t = ((List.range' 1 (paginas - 1)).map
            fun p => pageRows parse server p).flatten ∧
      ∀ p : Nat,
        (llenar_diccionario (sopa_atrezzo parse (server p)).2).isOk = false →
        pageRows parse server p = []) := by
  constructor
  · intro doc hne
    simp only [llenar_diccionario, mkDataFrame]
    rw [if_neg hne]
  · intro parse server paginas t hok
    rw [mainRun,
      mainSched_snd_of_perm parse server paginas _ (List.Perm.refl _)] at hok
    refine ⟨?_, ?_⟩
    · simp only [pageRows]
      rw [flatten_map_getD]
      exact concat_df_ok _ _ hok
    · intro p hp
      rw [pageRows]
      cases hll : llenar_diccionario (sopa_atrezzo parse (server p)).2 with
      | error e => rfl
      | ok v =>
          rw [hll] at hp
          simp [Except.isOk, Except.toBool] at hp

/-- C6: the Record Extractor collects all paragraph texts in document
order and keeps only the first 48: positions below 48 agree with the full
paragraph list, positions from 48 on are dropped, and when the document
has at most 48 paragraphs the whole list is kept in order. -/
theorem C6_descriptions_truncated_to_48 (doc : Node) :
    (descripciones_productos doc).length =
      min 48 (lista_descripciones doc).length ∧
    (∀ i : Nat, i < 48 →
      (descripciones_productos doc)[i]? =
        ((lista_descripciones doc).map Node.getText)[i]?) ∧
    (∀ i : Nat, 48 ≤ i → (descripciones_productos doc)[i]? = none) ∧
    ((lista_descripciones doc).length ≤ 48 →
      descripciones_productos doc =
        (lista_descripciones doc).map Node.getText) := by
  refine ⟨?_, ?_, ?_, ?_⟩
  · rw [descripciones_productos, List.length_take, List.length_map]
  · intro i hi
    rw [descripciones_productos, List.getElem?_take, if_pos hi]
  · intro i hi
    rw [descripciones_productos, List.getElem?_take, if_neg (by omega)]
  · intro hle
    rw [descripciones_productos,
      List.take_of_length_le (by rw [List.length_map]; exact hle)]

/-- C7: every section block whose text content has length greater than 1
contributes its text verbatim at its position, and a section block whose
text has length at most 1 contributes a null value at its position. -/
theorem C7_section_kept_iff_longer_than_one (doc : Node) (i : Nat) :
    (secciones_productos doc)[i]? =
      ((lista_secciones doc)[i]?).map extractSeccion ∧
    (∀ b : Node, 1 < (Node.getText b).length →
      extractSeccion b = some (Node.getText b)) ∧
    (∀ b : Node, (Node.getText b).length ≤ 1 → extractSeccion b = none) := by
  refine ⟨?_, ?_, ?_⟩
  · rw [secciones_productos, List.getElem?_map]
  · intro b hb
    rw [extractSeccion, if_pos hb]
  · intro b hb
    rw [extractSeccion, if_neg (by omega)]

/-- C8: for every page count `paginas >= 1` the Orchestrator issues exactly
`paginas - 1` fetch requests, one per page index in `1..paginas-1`, and the
page index `paginas` itself is never fetched. -/
theorem C8_requests_exactly_pred_pages (parse : String → Node)
    (server : Nat → HttpResponse) (paginas : Nat) (h : 1 ≤ paginas) :
    (mainRun parse server paginas).1.length = paginas - 1 ∧
    (mainRun parse server paginas).1 = List.range' 1 (paginas - 1) ∧
    paginas ∉ (mainRun parse server paginas).1 := by
  refine ⟨?_, rfl, ?_⟩
  · show (List.range' 1 (paginas - 1)).length = paginas - 1
    rw [List.length_range']
  · show paginas ∉ List.range' 1 (paginas - 1)
    rw [List.mem_range'_1]
    omega

/-- C8 witness: with a page count of 3, pages 1 and 2 are requested and
page 3 is not. -/
theorem C8_requests_exactly_pred_pages_witness :
    (mainRun parse0 server0 3).1.length = 3 - 1 ∧
    (mainRun parse0 server0 3).1 = List.range' 1 (3 - 1) ∧
    3 ∉ (mainRun parse0 server0 3).1 :=
  C8_requests_exactly_pred_pages parse0 server0 3 (by omega)

/-- C9: each product block contributes exactly one entry to the name and
category columns and each image block one entry to the url column (so one
field failing never aborts the others or later blocks); position `i` of a
column depends only on block `i`; and a missing name element, missing
category element, missing `img`, or missing `src` yields null for exactly
that field at that position. -/
theorem C9_field_absence_is_null_and_isolated (doc : Node) (i : Nat) :
    (nombres_productos doc).length = (lista_prod_cat doc).length ∧
    (categorias_productos doc).length = (lista_prod_cat doc).length ∧
    (imagenes_productos doc).length = (lista_imagenes doc).length ∧
    (nombres_productos doc)[i]? =
      ((lista_prod_cat doc)[i]?).map extractNombre ∧
    (categorias_productos doc)[i]? =
      ((lista_prod_cat doc)[i]?).map extractCategoria ∧
    (imagenes_productos doc)[i]? =
      ((lista_imagenes doc)[i]?).map extractImage ∧
    (∀ b : Node,
      (extractNombre b = none ↔ Node.findAllClass b "a" "title" = [])) ∧
    (∀ b : Node,
      (extractCategoria b = none ↔ Node.findAllClass b "a" "tag" = [])) ∧
    (∀ b : Node, (Node.findAllTag b "img" = [] → extractImage b = none) ∧
      ∀ im rest, Node.findAllTag b "img" = im :: rest →
        extractImage b = im.getAttr "src") := by
  refine ⟨?_, ?_, ?_, ?_, ?_, ?_, ?_, ?_, ?_⟩
  · rw [nombres_productos, List.length_map]
  · rw [categorias_productos, List.length_map]
  · rw [imagenes_productos, List.length_map]
  · rw [nombres_productos, List.getElem?_map]
  · rw [categorias_productos, List.getElem?_map]
  · rw [imagenes_productos, List.getElem?_map]
  · intro b
    cases hfa : Node.findAllClass b "a" "title" with
    | nil => simp [extractNombre, hfa]
    | cons a rest => simp [extractNombre, hfa]
  · intro b
    cases hfa : Node.findAllClass b "a" "tag" with
    | nil => simp [extractCategoria, hfa]
    | cons a rest => simp [extractCategoria, hfa]
  · intro b
    constructor
    · intro hfa
      simp [extractImage, hfa]
    · intro im rest hfa
      simp [extractImage, hfa]

/-- C10: under every completion interleaving of the page fetches (any
permutation of the submitted task indices) the run's Combined Table equals
the concatenation of the per-page tables in ascending page-index order:
results are gathered in submission order, so a later page completing first
never places its rows before an earlier page's rows. -/
theorem C10_combined_table_in_page_order (parse : String → Node)
    (server : Nat → HttpResponse) (paginas : Nat) (schedule : List Nat)
    (h : schedule.Perm (List.range (paginas - 1))) :
    (mainSched parse server paginas schedule).2 =
      concat_df ((List.range' 1 (paginas - 1)).filterMap
        fun p => (llenar_diccionario (sopa_atrezzo parse (server p)).2).toOption) :=
  mainSched_snd_of_perm parse server paginas schedule h

/-- C10 witness: a 3-page run in which the second submitted page completes
before the first still yields the pages' rows in ascending page order. -/
theorem C10_combined_table_in_page_order_witness :
    (mainSched parseE serverOk 3 [1, 0]).2 =
      concat_df ((List.range' 1 (3 - 1)).filterMap
        fun p =>
          (llenar_diccionario (sopa_atrezzo parseE (serverOk p)).2).toOption) :=
  C10_combined_table_in_page_order parseE serverOk 3 [1, 0] (by decide)
